import Mathlib

/-!
Shallow embedding of the notebook
`advanced_functionality/inference_pipeline_sparkml_blazingtext_dbpedia`
(a sequential SageMaker / AWS Glue orchestration script) and proofs of the
behavioural properties its specification states.  Remote services (S3, Glue,
SageMaker endpoints, Batch Transform) are modelled by their observable
request/response traces; the notebook's own control flow and the literal
parameters it passes are translated cell by cell from the source.
-/

namespace DbpediaPipeline

/- ---------------------------------------------------------------- -/
/- Cell-14: bucket creation with a ClientError handler, then uploads -/
/- ---------------------------------------------------------------- -/

/-- Bucket name from cell-14: the Python format string
aws-glue-(account)-(region). -/
def default_bucket (account region : String) : String :=
  "aws-glue-" ++ account ++ "-" ++ region

/-- Outcome of the remote s3.create_bucket call, an environment input to the
script: success, a botocore ClientError carrying an error code and message,
or some other exception (which the except ClientError clause does not catch). -/
inductive CreateBucketOutcome where
  | created
  | clientError (code : String) (message : String)
  | otherError (name : String)

/-- One sess.upload_data call as issued by cell-14. -/
structure UploadCall where
  path : String
  bucket : String
  key_prefix : String
deriving DecidableEq

/-- Observable behaviour of running cell-14: the exception it raises (if
any), what it prints, and the uploads it performs. -/
structure BucketCellTrace where
  raised : Option String
  printed : List String
  uploads : List UploadCall
deriving DecidableEq

/-- Cell-14 translated: the try block issues create_bucket (outcome is the
environment input); `except ClientError` catches every ClientError, prints a
message only when the code is BucketAlreadyOwnedByYou, and never re-raises;
any non-ClientError exception propagates; otherwise the cell goes on to
upload train.csv and test.csv under input/dbpedia in the same bucket. -/
def bucketCell (outcome : CreateBucketOutcome) (account region : String) :
    BucketCellTrace :=
  let bucket := default_bucket account region
  let uploadBoth : List UploadCall :=
    [⟨"train.csv", bucket, "input/dbpedia"⟩, ⟨"test.csv", bucket, "input/dbpedia"⟩]
  match outcome with
  | .created => ⟨none, [], uploadBoth⟩
  | .clientError code _message =>
      if code == "BucketAlreadyOwnedByYou" then
        ⟨none,
         ["A bucket with the same name already exists in your account - using the same bucket."],
         uploadBoth⟩
      else
        ⟨none, [], uploadBoth⟩
  | .otherError name => ⟨some name, [], []⟩

/- ---------------------------------------------------------------- -/
/- Cell-25: key prefixes derived from one timestamp                  -/
/- ---------------------------------------------------------------- -/

/-- Cell-25: input location of the data (literal). -/
def s3_input_key_prefix : String := "input/dbpedia"

/-- Cell-25: output location, timestamp_prefix + /dbpedia. -/
def s3_output_key_prefix (timestamp : String) : String :=
  timestamp ++ "/dbpedia"

/-- Cell-25: the MLeap serialized model location, s3_output_key_prefix +
/mleap. -/
def s3_model_key_prefix (timestamp : String) : String :=
  s3_output_key_prefix timestamp ++ "/mleap"

/-- The Python format string s3://(a)/(b)/(c) used throughout the notebook. -/
def s3Uri (bucket keyPath item : String) : String :=
  "s3://" ++ bucket ++ "/" ++ keyPath ++ "/" ++ item

/- ---------------------------------------------------------------- -/
/- Cell-30: start_job_run Arguments                                  -/
/- ---------------------------------------------------------------- -/

/-- Cell-25: s3_input_bucket = default_bucket. -/
def s3_input_bucket (account region : String) : String :=
  default_bucket account region

/-- Cell-25: s3_output_bucket = default_bucket. -/
def s3_output_bucket (account region : String) : String :=
  default_bucket account region

/-- Cell-25: s3_model_bucket = default_bucket. -/
def s3_model_bucket (account region : String) : String :=
  default_bucket account region

/-- Cell-30: the Arguments dict passed to glue_client.start_job_run,
threading the cell-25 buckets and key prefixes. -/
def glueJobArguments (account region timestamp : String) : List (String × String) :=
  [("--S3_INPUT_BUCKET", s3_input_bucket account region),
   ("--S3_INPUT_KEY_PREFIX", s3_input_key_prefix),
   ("--S3_OUTPUT_BUCKET", s3_output_bucket account region),
   ("--S3_OUTPUT_KEY_PREFIX", s3_output_key_prefix timestamp),
   ("--S3_MODEL_BUCKET", s3_model_bucket account region),
   ("--S3_MODEL_KEY_PREFIX", s3_model_key_prefix timestamp)]

/- ---------------------------------------------------------------- -/
/- Cell-33: the job-status poll loop                                 -/
/- ---------------------------------------------------------------- -/

/-- The tuple of cell-33's while condition: job_run_status not in
(FAILED, SUCCEEDED, STOPPED); a status is terminal when it is a member. -/
def terminalStatuses : List String := ["FAILED", "SUCCEEDED", "STOPPED"]

/-- Membership test of cell-33's while condition (negated: the loop runs
while this is false). -/
def isTerminal (s : String) : Bool := terminalStatuses.contains s

/-- Observable trace of running cell-33 against a given sequence of
get_job_run responses: the value of job_run_status after the loop (none when
the supplied responses were exhausted with the loop still running),
the number of get_job_run calls issued inside the loop body, and the total
seconds slept. -/
structure PollTrace where
  result : Option String
  loopQueries : Nat
  sleepSeconds : Nat

/-- Cell-33 translated.  The first get_job_run (before the loop) returned s;
responses lists the values the subsequent in-loop get_job_run calls return,
in order.  Each loop iteration issues one query, prints the status, and
sleeps a fixed 30 seconds; the loop re-checks the condition and exits only
on a terminal status.  There is no backoff, no attempt bound and no
loop-level timeout in the source. -/
def pollLoop (s : String) (responses : List String) : PollTrace :=
  if isTerminal s then ⟨some s, 0, 0⟩
  else
    match responses with
    | [] => ⟨none, 0, 0⟩
    | t :: rest =>
        let tr := pollLoop t rest
        ⟨tr.result, tr.loopQueries + 1, tr.sleepSeconds + 30⟩

/- ---------------------------------------------------------------- -/
/- Cells 37-41: the script after the poll loop                       -/
/- ---------------------------------------------------------------- -/

/-- The operations of cells 37, 39 and 41, in program order. -/
inductive TrainingStep where
  | get_image_uri
  | construct_estimator
  | set_hyperparameters
  | construct_channels
  | fit
deriving DecidableEq

/-- The code that runs after cell-33's loop exits, as a function of the
job_run_status the loop left behind.  The source cells 37-41 never read
job_run_status: there is no branch on it, and bt_model.fit runs
unconditionally. -/
def scriptAfterPoll (_job_run_status : String) : List TrainingStep :=
  [TrainingStep.get_image_uri, TrainingStep.construct_estimator,
   TrainingStep.set_hyperparameters, TrainingStep.construct_channels,
   TrainingStep.fit]

/- ---------------------------------------------------------------- -/
/- Cell-39: training data locations                                  -/
/- ---------------------------------------------------------------- -/

/-- Cell-39: s3_train_data. -/
def s3_train_data (account region timestamp : String) : String :=
  s3Uri (s3_output_bucket account region) ( s3_output_key_prefix timestamp) "train"

/-- Cell-39: s3_validation_data. -/
def s3_validation_data (account region timestamp : String) : String :=
  s3Uri (s3_output_bucket account region) ( s3_output_key_prefix timestamp) "validation"

/-- Cell-39: s3_output_location for the BlazingText model artifact. -/
def s3_output_location (account region timestamp : String) : String :=
  s3Uri (s3_output_bucket account region) ( s3_output_key_prefix timestamp) "bt_model"

/- ---------------------------------------------------------------- -/
/- Cell-46: the schema passed to the SparkML serving container       -/
/- ---------------------------------------------------------------- -/

/-- One entry of the schema's input list in cell-46. -/
structure SchemaInputField where
  name : String
  type : String

/-- The schema's output field in cell-46. -/
structure SchemaOutputField where
  name : String
  type : String
  struct : String

/-- The schema dict of cell-46. -/
structure Schema where
  input : List SchemaInputField
  output : SchemaOutputField

/-- JSON string quoting, as json.dumps renders the string values here. -/
def jsonQuote (s : String) : String := "\"" ++ s ++ "\""

/-- json.dumps rendering of one input field (Python dict insertion order,
default separators). -/
def SchemaInputField.dumps (f : SchemaInputField) : String :=
  "\x7b\"name\": " ++ jsonQuote f.name ++ ", \"type\": " ++ jsonQuote f.type ++ "\x7d"

/-- json.dumps rendering of the output field. -/
def SchemaOutputField.dumps (f : SchemaOutputField) : String :=
  "\x7b\"name\": " ++ jsonQuote f.name ++ ", \"type\": " ++ jsonQuote f.type ++
    ", \"struct\": " ++ jsonQuote f.struct ++ "\x7d"

/-- json.dumps rendering of the whole schema dict. -/
def Schema.dumps (s : Schema) : String :=
  "\x7b\"input\": [" ++
    String.intercalate ", " (s.input.map SchemaInputField.dumps) ++
    "], \"output\": " ++ SchemaOutputField.dumps s.output ++ "\x7d"

/-- The schema value built in cell-46: one string input field named
abstract, one string-array output field named tokenized_abstract. -/
def schema : Schema :=
  ⟨[⟨"abstract", "string"⟩], ⟨"tokenized_abstract", "string", "array"⟩⟩

/-- Cell-46: schema_json = json.dumps(schema). -/
def schema_json : String := Schema.dumps schema

/- ---------------------------------------------------------------- -/
/- Cell-49: the SparkML model, the BlazingText model, the pipeline   -/
/- ---------------------------------------------------------------- -/

/-- Cell-49: sparkml_data, the MLeap model artifact path. -/
def sparkml_data (account region timestamp : String) : String :=
  s3Uri (s3_model_bucket account region) ( s3_model_key_prefix timestamp) "model.tar.gz"

/-- The SparkMLModel of the SageMaker SDK as used here: an artifact path
and an environment map. -/
structure SparkMLModel where
  model_data : String
  env : List (String × String)

/-- Cell-49: the SparkML model with the schema and the accept-type override
in its environment. -/
def sparkml_model (account region timestamp : String) : SparkMLModel :=
  ⟨ sparkml_data account region timestamp,
    [("SAGEMAKER_SPARKML_SCHEMA", schema_json),
     ("SAGEMAKER_DEFAULT_INVOCATIONS_ACCEPT", "application/jsonlines;data=text")]⟩

/-- The generic Model of the SageMaker SDK as used here: an artifact path
and a container image. -/
structure Model where
  model_data : String
  image : String

/-- Cell-49: bt_model rebound to a Model over the trained BlazingText
artifact and the training image. -/
def bt_model (bt_model_data training_image : String) : Model :=
  ⟨bt_model_data, training_image⟩

/-- One stage reference inside a PipelineModel. -/
inductive PipelineStage where
  | sparkml (m : SparkMLModel)
  | blazingtext (m : Model)

/-- The PipelineModel of the SageMaker SDK: a name, a role and an ordered
list of stage model references. -/
structure PipelineModel where
  name : String
  role : String
  models : List PipelineStage

/-- Cell-49: model_name = inference-pipeline- + timestamp_prefix. -/
def model_name (timestamp : String) : String :=
  "inference-pipeline-" ++ timestamp

/-- Cell-49: sm_model = PipelineModel over the ordered list containing the
SparkML model and then the BlazingText model. -/
def sm_model (account region timestamp role bt_model_data training_image : String) :
    PipelineModel :=
  ⟨ model_name timestamp, role,
    [PipelineStage.sparkml ( sparkml_model account region timestamp),
     PipelineStage.blazingtext ( bt_model bt_model_data training_image)]⟩

/- ---------------------------------------------------------------- -/
/- Cells 51-56: endpoint deployment and the two predictors           -/
/- ---------------------------------------------------------------- -/

/-- Cell-51: endpoint_name = inference-pipeline-ep- + timestamp_prefix. -/
def endpoint_name (timestamp : String) : String :=
  "inference-pipeline-ep-" ++ timestamp

/-- A deployed real-time endpoint: its name and the pipeline model it was
deployed from. -/
structure Endpoint where
  name : String
  model : PipelineModel

/-- Cell-51: sm_model.deploy bound to endpoint_name. -/
def deployedEndpoint (account region timestamp role bt_model_data training_image : String) :
    Endpoint :=
  ⟨ endpoint_name timestamp,
    sm_model account region timestamp role bt_model_data training_image⟩

/-- sagemaker.content_types.CONTENT_TYPE_CSV. -/
def CONTENT_TYPE_CSV : String := "text/csv"

/-- sagemaker.content_types.CONTENT_TYPE_JSON. -/
def CONTENT_TYPE_JSON : String := "application/json"

/-- A RealTimePredictor as configured in cells 54 and 56: target endpoint,
request content type, and optional accept header. -/
structure RealTimePredictor where
  endpoint : String
  content_type : String
  accept : Option String

/-- Cell-54: the CSV-serializing predictor. -/
def csv_predictor (timestamp : String) : RealTimePredictor :=
  ⟨ endpoint_name timestamp, CONTENT_TYPE_CSV, some "application/jsonlines"⟩

/-- Cell-56: the JSON-serializing predictor. -/
def json_predictor (timestamp : String) : RealTimePredictor :=
  ⟨ endpoint_name timestamp, CONTENT_TYPE_JSON, none⟩

/- ---------------------------------------------------------------- -/
/- Cells 62-64: batch transform                                      -/
/- ---------------------------------------------------------------- -/

/-- Cell-64: input_data_path, the uploaded batch input file. -/
def input_data_path (account region : String) : String :=
  s3Uri (default_bucket account region) "batch" "batch_input_dbpedia.csv"

/-- Cell-64: output_data_path. -/
def output_data_path (account region timestamp : String) : String :=
  s3Uri (default_bucket account region) "batch_output/dbpedia" timestamp

/-- The Transformer of the SageMaker SDK as configured in cell-64. -/
structure Transformer where
  model_name : String
  instance_count : Nat
  instance_type : String
  strategy : String
  assemble_with : String
  output_path : String
  base_transform_job_name : String
  accept : String

/-- Cell-64: the Transformer bound to model_name, SingleRecord strategy and
Line assembly. -/
def transformer (account region timestamp : String) : Transformer :=
  ⟨ model_name timestamp, 1, "ml.m4.xlarge", "SingleRecord", "Line",
    output_data_path account region timestamp, "serial-inference-batch",
    CONTENT_TYPE_CSV⟩

/-- The transformer.transform call of cell-64. -/
structure TransformCall where
  data : String
  content_type : String
  split_type : String

/-- Cell-64: transformer.transform over the batch input with Line split. -/
def transformCall (account region : String) : TransformCall :=
  ⟨ input_data_path account region, CONTENT_TYPE_CSV, "Line"⟩

/- ---------------------------------------------------------------- -/
/- Platform semantics the spec relies on (not implemented in src)    -/
/- ---------------------------------------------------------------- -/

/-- Modelled from the spec: how the platform serves a deployed
PipelineModel.  The serving side is vendor code absent from src; per the
spec, the composite invokes its stages in list order, each stage's output
feeding the next, for both the real-time and the batch path. -/
def PipelineModel.invoke (applyStage : PipelineStage → String → String)
    (pm : PipelineModel) (x : String) : String :=
  pm.models.foldl (fun acc st => applyStage st acc) x

/-- Modelled from the spec: Batch Transform semantics for split_type Line,
strategy SingleRecord and assemble_with Line.  The platform side is absent
from src; per the spec the input file is split into lines, each line is one
request to the model, and the responses are assembled in input order, one
result line per input line. -/
def batchTransformRun (modelFn : String → String) (inputLines : List String) :
    List String :=
  List.map modelFn inputLines

/-- A request payload to the deployed endpoint: cell-54 sends a CSV string,
cell-56 sends a JSON object carrying a data row. -/
inductive EndpointRequest where
  | csv (payload : String)
  | json (data : List String)

/-- Modelled from the spec: request decoding by the first-stage serving
container, absent from src.  Under the single string-field schema of
cell-46, a CSV payload is the one input column and a JSON payload carries
the data row directly. -/
def decodeRequest : EndpointRequest → List String
  | .csv payload => [payload]
  | .json data => data

/-- Modelled from the spec: an endpoint invocation routes the decoded
record through stage 1 (the feature transform) and then stage 2 (the
classifier); both containers are vendor code absent from src. -/
def invokeEndpoint (featurize : List String → String)
    (classify : String → String) (r : EndpointRequest) : String :=
  classify (featurize (decodeRequest r))

end DbpediaPipeline

namespace DbpediaPipeline

/- ---------------------------------------------------------------- -/
/- Theorems                                                          -/
/- ---------------------------------------------------------------- -/

theorem pollLoop_result_isTerminal (responses : List String) :
    ∀ (s u : String), (pollLoop s responses).result = some u →
      isTerminal u = true := by
  induction responses with
  | nil =>
      intro s u h
      rw [pollLoop] at h
      by_cases hs : isTerminal s
      · simp only [hs, if_pos] at h
        obtain rfl : s = u := by simpa using h
        exact hs
      · simp [hs] at h
  | cons t rest ih =>
      intro s u h
      rw [pollLoop] at h
      by_cases hs : isTerminal s
      · simp only [hs, if_pos] at h
        obtain rfl : s = u := by simpa using h
        exact hs
      · simp only [hs, if_neg, Bool.false_eq_true, not_false_iff] at h
        exact ih t u h

/-- C1: for every status sequence ending in a terminal value the poll loop
of cell-33 terminates and job_run_status after the loop is exactly the first
terminal value of the sequence; the terminal set is exactly FAILED,
SUCCEEDED, STOPPED. -/
theorem poll_loop_returns_first_terminal (s : String) (responses : List String)
    (t : String) (h : (s :: responses).find? isTerminal = some t) :
    (pollLoop s responses).result = some t ∧
      (∀ x, isTerminal x = true ↔
        (x = "FAILED" ∨ x = "SUCCEEDED" ∨ x = "STOPPED")) := by
  refine ⟨?_, ?_⟩
  · induction responses generalizing s with
    | nil =>
        by_cases hs : isTerminal s
        · rw [List.find?_cons_of_pos _ hs] at h
          obtain rfl : s = t := by simpa using h
          rw [pollLoop]
          simp [hs]
        · rw [List.find?_cons_of_neg _ (by simpa using hs)] at h
          simp [List.find?] at h
    | cons r rest ih =>
        by_cases hs : isTerminal s
        · rw [List.find?_cons_of_pos _ hs] at h
          obtain rfl : s = t := by simpa using h
          rw [pollLoop]
          simp [hs]
        · rw [List.find?_cons_of_neg _ (by simpa using hs)] at h
          have hrec := ih r h
          rw [pollLoop]
          simp only [hs, Bool.false_eq_true, if_false]
          exact hrec
  · intro x
    simp [isTerminal, terminalStatuses, List.contains, List.elem_eq_mem]

/-- C1 witness: the loop run against the concrete response sequence RUNNING,
RUNNING, SUCCEEDED exits with SUCCEEDED. -/
theorem poll_loop_returns_first_terminal_witness :
    (pollLoop "RUNNING" ["RUNNING", "SUCCEEDED"]).result = some "SUCCEEDED" ∧
      (∀ x, isTerminal x = true ↔
        (x = "FAILED" ∨ x = "SUCCEEDED" ∨ x = "STOPPED")) :=
  poll_loop_returns_first_terminal "RUNNING" ["RUNNING", "SUCCEEDED"]
    "SUCCEEDED" (by decide)

/-- C2: against a response sequence with no terminal status the loop of
cell-33 never exits: it consumes one status query per iteration, sleeps a
fixed 30 seconds per iteration (no backoff, no attempt bound, no loop-level
timeout), and whenever it does exit, the final status is terminal. -/
theorem poll_loop_nonterminal_never_returns (s : String)
    (responses : List String)
    (h : ∀ x ∈ s :: responses, isTerminal x = false) :
    (pollLoop s responses).result = none ∧
      (pollLoop s responses).loopQueries = responses.length ∧
      (pollLoop s responses).sleepSeconds = 30 * responses.length ∧
      (∀ (rs : List String) (y u : String),
        (pollLoop y rs).result = some u → isTerminal u = true) := by
  refine ⟨?_, ?_, ?_, fun rs y u => pollLoop_result_isTerminal rs y u⟩ <;>
  · induction responses generalizing s with
    | nil =>
        have hs := h s (by simp)
        rw [pollLoop]
        simp [hs]
    | cons t rest ih =>
        have hs := h s (by simp)
        have ht : ∀ x ∈ t :: rest, isTerminal x = false := by
          intro x hx
          exact h x (by simp [hx])
        have hrec := ih t ht
        rw [pollLoop]
        simp only [hs, Bool.false_eq_true, if_false]
        simp [hrec]
        try ring

/-- C2 witness: three consecutive RUNNING responses keep the loop running,
with two in-loop queries and 60 seconds slept. -/
theorem poll_loop_nonterminal_never_returns_witness :
    (pollLoop "RUNNING" ["RUNNING", "RUNNING"]).result = none ∧
      (pollLoop "RUNNING" ["RUNNING", "RUNNING"]).loopQueries = 2 ∧
      (pollLoop "RUNNING" ["RUNNING", "RUNNING"]).sleepSeconds = 30 * 2 ∧
      (∀ (rs : List String) (y u : String),
        (pollLoop y rs).result = some u → isTerminal u = true) :=
  poll_loop_nonterminal_never_returns "RUNNING" ["RUNNING", "RUNNING"]
    (by decide)

/-- C3: after the poll loop the script proceeds unconditionally to
bt_model.fit for every terminal status: cells 37-41 never branch on
job_run_status, so a FAILED or STOPPED run is not distinguished from
SUCCEEDED before the training step runs. -/
theorem script_proceeds_to_fit_unconditionally (s : String)
    (_h : isTerminal s = true) :
    TrainingStep.fit ∈ scriptAfterPoll s ∧
      scriptAfterPoll s = scriptAfterPoll "SUCCEEDED" ∧
      (∀ t, isTerminal t = true → scriptAfterPoll s = scriptAfterPoll t) :=
  ⟨by simp [scriptAfterPoll], rfl, fun _t _ht => rfl⟩

/-- C3 witness: a run whose job ended FAILED still reaches bt_model.fit,
on the same path as a SUCCEEDED run. -/
theorem script_proceeds_to_fit_unconditionally_witness :
    TrainingStep.fit ∈ scriptAfterPoll "FAILED" ∧
      scriptAfterPoll "FAILED" = scriptAfterPoll "SUCCEEDED" ∧
      (∀ t, isTerminal t = true →
        scriptAfterPoll "FAILED" = scriptAfterPoll t) :=
  script_proceeds_to_fit_unconditionally "FAILED" (by decide)

/-- C4: a ClientError with code BucketAlreadyOwnedByYou is not re-raised by
cell-14 and the cell performs exactly the uploads of the fresh-creation
case, train.csv and test.csv into the same bucket. -/
theorem bucket_already_owned_tolerated (account region message : String) :
    (bucketCell (CreateBucketOutcome.clientError "BucketAlreadyOwnedByYou" message)
        account region).raised = none ∧
      (bucketCell (CreateBucketOutcome.clientError "BucketAlreadyOwnedByYou" message)
          account region).uploads =
        (bucketCell CreateBucketOutcome.created account region).uploads ∧
      (bucketCell CreateBucketOutcome.created account region).uploads =
        [⟨"train.csv", default_bucket account region, "input/dbpedia"⟩,
         ⟨"test.csv", default_bucket account region, "input/dbpedia"⟩] := by
  refine ⟨?_, ?_, rfl⟩ <;> simp [bucketCell]

/-- C9: cell-14's handler swallows every ClientError: for any code other
than BucketAlreadyOwnedByYou the if branch is skipped, nothing is printed,
no exception propagates, and the uploads still run into the same bucket. -/
theorem client_error_always_swallowed (account region code message : String)
    (hne : code ≠ "BucketAlreadyOwnedByYou") :
    (bucketCell (CreateBucketOutcome.clientError code message)
        account region).raised = none ∧
      (bucketCell (CreateBucketOutcome.clientError code message)
          account region).printed = [] ∧
      (bucketCell (CreateBucketOutcome.clientError code message)
          account region).uploads =
        (bucketCell CreateBucketOutcome.created account region).uploads := by
  have hb : (code == "BucketAlreadyOwnedByYou") = false :=
    beq_eq_false_iff_ne.mpr hne
  refine ⟨?_, ?_, ?_⟩ <;> simp [bucketCell, hb]

/-- C9 witness: a BucketAlreadyExists error (name collision with another
account's bucket) is silently swallowed and the uploads proceed. -/
theorem client_error_always_swallowed_witness :
    (bucketCell
        (CreateBucketOutcome.clientError "BucketAlreadyExists"
          "The requested bucket name is not available.")
        "123456789012" "us-west-2").raised = none ∧
      (bucketCell
          (CreateBucketOutcome.clientError "BucketAlreadyExists"
            "The requested bucket name is not available.")
          "123456789012" "us-west-2").printed = [] ∧
      (bucketCell
          (CreateBucketOutcome.clientError "BucketAlreadyExists"
            "The requested bucket name is not available.")
          "123456789012" "us-west-2").uploads =
        (bucketCell CreateBucketOutcome.created "123456789012" "us-west-2").uploads :=
  client_error_always_swallowed "123456789012" "us-west-2"
    "BucketAlreadyExists" "The requested bucket name is not available."
    (by decide)

/-- C5: the assembled pipeline model is exactly the two-element ordered
list SparkML stage then BlazingText stage; invoking it applies stage 1
before stage 2; the deployed real-time endpoint is bound to this very
composite and the batch Transformer is bound to the same model_name. -/
theorem pipeline_two_stage_both_paths
    (account region timestamp role bt_model_data training_image : String)
    (applyStage : PipelineStage → String → String) (x : String) :
    (sm_model account region timestamp role bt_model_data training_image).models =
      [PipelineStage.sparkml ( sparkml_model account region timestamp),
       PipelineStage.blazingtext ( bt_model bt_model_data training_image)] ∧
      (sm_model account region timestamp role bt_model_data training_image).models.length = 2 ∧
      PipelineModel.invoke applyStage
          (sm_model account region timestamp role bt_model_data training_image) x =
        applyStage
          (PipelineStage.blazingtext ( bt_model bt_model_data training_image))
          (applyStage (PipelineStage.sparkml ( sparkml_model account region timestamp)) x) ∧
      (deployedEndpoint account region timestamp role bt_model_data training_image).model =
        sm_model account region timestamp role bt_model_data training_image ∧
      (transformer account region timestamp).model_name =
        (sm_model account region timestamp role bt_model_data training_image).name :=
  ⟨rfl, rfl, rfl, rfl, rfl⟩

/-- C6: the first-stage SparkML model's environment carries the accept-type
override application/jsonlines;data=text under
SAGEMAKER_DEFAULT_INVOCATIONS_ACCEPT together with the schema descriptor
under SAGEMAKER_SPARKML_SCHEMA. -/
theorem sparkml_env_overrides (account region timestamp : String) :
    List.lookup "SAGEMAKER_DEFAULT_INVOCATIONS_ACCEPT"
        (( sparkml_model account region timestamp).env) =
      some "application/jsonlines;data=text" ∧
      List.lookup "SAGEMAKER_SPARKML_SCHEMA"
          (( sparkml_model account region timestamp).env) =
        some schema_json ∧
      schema_json =
        "\x7b\"input\": [\x7b\"name\": \"abstract\", \"type\": \"string\"\x7d], \"output\": \x7b\"name\": \"tokenized_abstract\", \"type\": \"string\", \"struct\": \"array\"\x7d\x7d" := by
  refine ⟨?_, ?_, ?_⟩ <;> rfl

/-- C7: cell-64 submits the batch job with Line split, SingleRecord
strategy and Line assembly, and under those semantics an input of N lines
yields exactly N output lines, the i-th output being the model's response
to the i-th input line. -/
theorem batch_transform_line_preserving (account region timestamp : String)
    (modelFn : String → String) (inputLines : List String) :
    (transformer account region timestamp).strategy = "SingleRecord" ∧
      (transformer account region timestamp).assemble_with = "Line" ∧
      (transformCall account region).split_type = "Line" ∧
      (batchTransformRun modelFn inputLines).length = inputLines.length ∧
      (∀ i : Nat, (batchTransformRun modelFn inputLines).get? i =
        Option.map modelFn (inputLines.get? i)) :=
  ⟨rfl, rfl, rfl, by simp [batchTransformRun],
   fun i => by simp [batchTransformRun]⟩

/-- C8: a CSV-encoded request and a JSON-encoded request carrying the same
underlying text decode to the same record and hence produce the same
classification output through the same deployed pipeline; the two
predictors of cells 54 and 56 target the same endpoint. -/
theorem payload_format_equivalence (featurize : List String → String)
    (classify : String → String) (text timestamp : String) :
    invokeEndpoint featurize classify (EndpointRequest.csv text) =
      invokeEndpoint featurize classify (EndpointRequest.json [text]) ∧
      (csv_predictor timestamp).endpoint = endpoint_name timestamp ∧
      (json_predictor timestamp).endpoint = endpoint_name timestamp :=
  ⟨rfl, rfl, rfl⟩

/-- C10: every inter-step storage location is derived from the one
timestamp_prefix: the training input prefixes equal the output prefix
passed to the Glue job run plus train and validation, the SparkML artifact
path equals the Glue model prefix (the output prefix plus /mleap) plus
model.tar.gz, and the input, output and model buckets all equal the one
default_bucket. -/
theorem storage_paths_consistently_threaded (account region timestamp : String) :
    s3_input_bucket account region = default_bucket account region ∧
      s3_output_bucket account region = default_bucket account region ∧
      s3_model_bucket account region = default_bucket account region ∧
      List.lookup "--S3_OUTPUT_KEY_PREFIX"
          (glueJobArguments account region timestamp) =
        some ( s3_output_key_prefix timestamp) ∧
      List.lookup "--S3_MODEL_KEY_PREFIX"
          (glueJobArguments account region timestamp) =
        some ( s3_model_key_prefix timestamp) ∧
      s3_model_key_prefix timestamp = s3_output_key_prefix timestamp ++ "/mleap" ∧
      s3_train_data account region timestamp =
        s3Uri (s3_output_bucket account region) ( s3_output_key_prefix timestamp) "train" ∧
      s3_validation_data account region timestamp =
        s3Uri (s3_output_bucket account region) ( s3_output_key_prefix timestamp) "validation" ∧
      sparkml_data account region timestamp =
        s3Uri (s3_model_bucket account region)
          ( s3_output_key_prefix timestamp ++ "/mleap") "model.tar.gz" := by
  refine ⟨rfl, rfl, rfl, ?_, ?_, rfl, rfl, rfl, rfl⟩ <;> rfl

end DbpediaPipeline
